import Mathlib

/-!
Verification of the MCP retrieval pipeline stage
(`agent/component/mcp_retrieval.py`).

The stage extracts a question from the prior step output, calls the
remote tool `ragflow_retrieval` over an MCP session, and normalizes the
response into a list of content strings.  Python dynamic values are
embedded shallowly: only the distinctions the code actually tests are
represented (attribute presence, mapping membership, string conversion),
and an uncaught Python exception is modelled as the `Except.error`
branch of the stage result.
-/

/-- Uncaught Python exceptions the stage code can raise past its own
boundary: indexing an empty sequence at `ans["content"][0]` (line 77),
and iterating a non-iterable `outputs` value in the normalization loop
(line 96). -/
inductive PyErr where
  | indexError
  | typeError (msg : String)
  deriving DecidableEq

/-- A content item as the normalization loop (lines 96 to 102) inspects
it.  The loop asks exactly three questions of an item: the value of its
`text` attribute with default `None` (modelled as `textAttr`, `none`
standing for absent or null), whether the item is a mapping and what its
`"text"` key holds (`isDict`, `dictText`), and its `str` representation
(`strRepr`).  Text values are modelled as strings. -/
structure ContentItem where
  textAttr : Option String
  isDict : Bool
  dictText : Option String
  strRepr : String
  deriving DecidableEq

/-- The value bound to `outputs` after decoding: either a sequence of
content items, or a value that is not iterable (carrying its Python
type name), over which the `for` loop of line 96 raises a TypeError. -/
inductive OutputsVal where
  | seq (items : List ContentItem)
  | nonSeq (typeName : String)
  deriving DecidableEq

/-- A remote response as lines 86 to 93 inspect it: either it exposes an
`outputs` attribute, or attribute access raises AttributeError and
`model_dump()` succeeds yielding a mapping that may or may not carry an
`"outputs"` key, or both attribute access and the dump fail. -/
inductive RemoteResponse where
  | attr (outputs : OutputsVal)
  | dump (outputs : Option OutputsVal)
  | undecodable
  deriving DecidableEq

/-- Lines 86 to 93: take `res.outputs` if the attribute exists,
otherwise `res.model_dump().get("outputs", [])`, otherwise the empty
list. -/
def decodeOutputs : RemoteResponse → OutputsVal
  | .attr v => v
  | .dump (some v) => v
  | .dump none => .seq []
  | .undecodable => .seq []

/-- Lines 97 to 102: the `text` attribute when non-null, else the
mapping value at key `"text"` when the item is a mapping and that value
is non-null, else `str(item)`. -/
def normalizeItem (item : ContentItem) : String :=
  match item.textAttr with
  | some t => t
  | none =>
    match (if item.isDict then item.dictText else none) with
    | some t => t
    | none => item.strRepr

/-- The `for` loop of lines 95 to 102: over a sequence it appends one
normalized string per item in input order; over a non-iterable value it
raises a TypeError. -/
def iterNormalize : OutputsVal → Except PyErr (List String)
  | .seq items => .ok (items.map normalizeItem)
  | .nonSeq t => .error (.typeError (t ++ " object is not iterable"))

/-- One tool call as issued by `session.call_tool` (lines 65 to 72). -/
structure ToolCall where
  name : String
  dataset_ids : List String
  document_ids : List String
  question : String
  deriving DecidableEq

/-- The configuration surface of `MCPRetrievalParam`. -/
structure MCPParam where
  mcp_url : String
  dataset_ids : List String
  document_ids : List String

/-- Defaults set by `MCPRetrievalParam.__init__`. -/
def defaultParam : MCPParam :=
  ⟨"http://localhost:9382/sse", [], []⟩

/-- The environment of one invocation: whether the two MCP client
imports succeeded (lines 29 to 34), the outcome of opening the SSE
stream, creating the session and running the initialization handshake
(lines 62 to 64), and the remote reply to a tool call (line 65).  Error
values carry the string representation of the raised exception. -/
structure Env where
  clientSessionAvailable : Bool
  sseClientAvailable : Bool
  connect : Except String Unit
  callTool : ToolCall → Except String RemoteResponse

/-- Transcription of `MCPRetrieval._async_call_tool` (lines 58 to 73):
raise a RuntimeError when the MCP client library is unavailable,
otherwise connect, initialize and issue a single `ragflow_retrieval`
tool call with the configured identifiers and the question verbatim.
The second component is the trace of tool calls issued. -/
def asyncCallTool (env : Env) (param : MCPParam) (question : String) :
    Except String RemoteResponse × List ToolCall :=
  if !env.clientSessionAvailable || !env.sseClientAvailable then
    (.error "MCP client library is not available", [])
  else
    match env.connect with
    | .error msg => (.error msg, [])
    | .ok _ =>
      let call : ToolCall :=
        ⟨"ragflow_retrieval", param.dataset_ids, param.document_ids, question⟩
      (env.callTool call, [call])

/-- The prior step result as line 77 inspects it: the optional
`"content"` field, with each element already converted by `str`. -/
structure StageInput where
  content? : Option (List String)
  deriving DecidableEq

/-- Line 77, `str(ans["content"][0]) if "content" in ans else ""`: an
absent field yields the empty question, a present but empty sequence
raises an IndexError, and otherwise the first element is the question. -/
def extractQuestion : StageInput → Except PyErr String
  | ⟨none⟩ => .ok ""
  | ⟨some []⟩ => .error .indexError
  | ⟨some (x :: _)⟩ => .ok x

/-- The stage result value: `be_output(s)` for a single-string output
(the empty string or an error-tagged message), or the one-column
DataFrame built from the normalized contents (line 106). -/
inductive StageOutput where
  | beOutput (s : String)
  | table (content : List String)
  deriving DecidableEq

/-- Transcription of `MCPRetrieval._run` (lines 75 to 106): extract the
question, short-circuit on an empty question, perform the remote call
with every exception converted to an error-tagged output, decode and
normalize the response, and return either the empty output or the
contents table.  An `Except.error` result marks an exception escaping
the stage; the trace lists the tool calls issued. -/
def run (env : Env) (param : MCPParam) (input : StageInput) :
    Except PyErr StageOutput × List ToolCall :=
  match extractQuestion input with
  | .error e => (.error e, [])
  | .ok question =>
    if question = "" then
      (.ok (.beOutput ""), [])
    else
      match asyncCallTool env param question with
      | (.error msg, trace) => (.ok (.beOutput ("Error: " ++ msg)), trace)
      | (.ok res, trace) =>
        match iterNormalize (decodeOutputs res) with
        | .error e => (.error e, trace)
        | .ok contents =>
          if contents = [] then (.ok (.beOutput ""), trace)
          else (.ok (.table contents), trace)

/-- C1: whenever the remote-call phase raises (capability check,
connection, handshake, or tool call), the stage catches it and returns
exactly one error-tagged string of the form `Error: <message>`, and no
exception from that phase propagates past the stage boundary. -/
theorem run_call_error_caught (env : Env) (param : MCPParam)
    (input : StageInput) (q msg : String)
    (hq : extractQuestion input = .ok q) (hne : q ≠ "")
    (herr : (asyncCallTool env param q).1 = .error msg) :
    run env param input
      = (.ok (.beOutput ("Error: " ++ msg)), (asyncCallTool env param q).2) := by
  rcases hac : asyncCallTool env param q with ⟨r, t⟩
  rw [hac] at herr
  simp only at herr
  subst herr
  simp only [run, hq, if_neg hne, hac]

/-- Witness for C1 at a concrete environment whose client library is
unavailable. -/
theorem run_call_error_caught_witness :
    run ⟨false, false, .ok (), fun _ => .ok .undecodable⟩
        ⟨"u", [], []⟩ ⟨some ["q"]⟩
      = (.ok (.beOutput "Error: MCP client library is not available"), []) := by
  have h := run_call_error_caught
    ⟨false, false, .ok (), fun _ => .ok .undecodable⟩ ⟨"u", [], []⟩
    ⟨some ["q"]⟩ "q" "MCP client library is not available" rfl
    (by decide) rfl
  simpa using h

/-- C4: an empty question short-circuits to the empty output without a
remote call, and no exception is raised. -/
theorem run_empty_question (env : Env) (param : MCPParam)
    (input : StageInput) (hq : extractQuestion input = .ok "") :
    run env param input = (.ok (.beOutput ""), []) := by
  simp only [run, hq, if_pos]

/-- Witness for C4 at the input with no content field. -/
theorem run_empty_question_witness :
    run ⟨true, true, .ok (), fun _ => .ok .undecodable⟩ ⟨"u", [], []⟩ ⟨none⟩
      = (.ok (.beOutput ""), []) :=
  run_empty_question _ _ _ rfl

/-- Counterexample for C2: with the content field present but holding an
empty sequence, the stage raises an IndexError (line 77) instead of
returning an empty result; the result is not an empty output for any
message. -/
theorem run_empty_content_raises :
    run ⟨true, true, .ok (), fun _ => .ok .undecodable⟩ ⟨"u", [], []⟩ ⟨some []⟩
        = (.error .indexError, []) ∧
      ∀ s : String,
        (run ⟨true, true, .ok (), fun _ => .ok .undecodable⟩ ⟨"u", [], []⟩
            ⟨some []⟩).1 ≠ .ok (.beOutput s) := by
  refine ⟨rfl, fun s h => ?_⟩
  simp [run, extractQuestion] at h

/-- C2 (amended): an absent content field, or a first content element
that converts to the empty string, yields the empty output with no
remote call; a present but empty content sequence raises an uncaught
IndexError, still with no remote call. -/
theorem run_input_short_circuit (env : Env) (param : MCPParam) :
    run env param ⟨none⟩ = (.ok (.beOutput ""), []) ∧
      (∀ rest : List String,
        run env param ⟨some ("" :: rest)⟩ = (.ok (.beOutput ""), [])) ∧
      run env param ⟨some []⟩ = (.error .indexError, []) :=
  ⟨rfl, fun _ => rfl, rfl⟩

/-- Counterexample for C3: a response whose `outputs` attribute exists
but is not a sequence makes the normalization loop raise a TypeError
that escapes the stage, so normalization does not degrade this shape to
an empty result set. -/
theorem run_nonseq_outputs_raises :
    run ⟨true, true, .ok (), fun _ => .ok (.attr (.nonSeq "int"))⟩
        ⟨"u", [], []⟩ ⟨some ["q"]⟩
      = (.error (.typeError "int object is not iterable"),
         [⟨"ragflow_retrieval", [], [], "q"⟩]) := rfl

/-- C3 (amended): normalization never raises when the decoded `outputs`
value is a sequence, and a response with no usable `outputs` (neither
the attribute form nor the mapping form decodes, or the mapping lacks
the key) degrades to the empty result set; but when the decoded
`outputs` exists and is not a sequence, iterating it raises a TypeError
that fails the invocation. -/
theorem normalize_total_on_sequences (res : RemoteResponse) :
    (∀ items, decodeOutputs res = .seq items →
        iterNormalize (decodeOutputs res) = .ok (items.map normalizeItem)) ∧
      iterNormalize (decodeOutputs .undecodable) = .ok [] ∧
      iterNormalize (decodeOutputs (.dump none)) = .ok [] ∧
      (∀ t, decodeOutputs res = .nonSeq t →
        iterNormalize (decodeOutputs res)
          = .error (.typeError (t ++ " object is not iterable"))) := by
  refine ⟨fun items h => ?_, rfl, rfl, fun t h => ?_⟩ <;> rw [h] <;> rfl

/-- Witness for C3 (amended) at concrete decodable and non-sequence
shapes. -/
theorem normalize_total_on_sequences_witness :
    iterNormalize (decodeOutputs (.attr (.seq [])) ) = .ok [] ∧
      iterNormalize (decodeOutputs (.attr (.nonSeq "int")))
        = .error (.typeError "int object is not iterable") :=
  ⟨(normalize_total_on_sequences (.attr (.seq []))).1 [] rfl,
   (normalize_total_on_sequences (.attr (.nonSeq "int"))).2.2.2 "int" rfl⟩

/-- C5: when `outputs` is a sequence of items each carrying a non-null
`text` attribute, normalization returns exactly one string per item,
in input order, and the string produced for the item at each position
is exactly that item's `text` value. -/
theorem normalize_text_order (items : List ContentItem)
    (h : ∀ it ∈ items, it.textAttr.isSome) :
    iterNormalize (decodeOutputs (.attr (.seq items)))
        = .ok (items.map normalizeItem) ∧
      (items.map normalizeItem).length = items.length ∧
      ∀ i : Fin items.length,
        (items.get i).textAttr = some (normalizeItem (items.get i)) := by
  refine ⟨rfl, items.length_map normalizeItem, fun i => ?_⟩
  have hm := h (items.get i) (items.get_mem i.1 i.2)
  rcases Option.isSome_iff_exists.mp hm with ⟨t, ht⟩
  have hni : normalizeItem (items.get i) = t := by
    simp only [normalizeItem, ht]
  rw [ht, hni]

/-- Witness for C5 on a two-item sequence with text values A and B. -/
theorem normalize_text_order_witness :
    iterNormalize (decodeOutputs (.attr (.seq
        [⟨some "A", false, none, "x"⟩, ⟨some "B", false, none, "y"⟩])))
      = .ok ([(⟨some "A", false, none, "x"⟩ : ContentItem),
              ⟨some "B", false, none, "y"⟩].map normalizeItem) :=
  (normalize_text_order
    [⟨some "A", false, none, "x"⟩, ⟨some "B", false, none, "y"⟩]
    (by decide)).1

/-- C6: every content item normalizes to exactly one string, resolved
as the `text` attribute when non-null, else the mapping value at key
`"text"` when the item is a mapping carrying a non-null one, else the
string representation of the item; and normalization of a sequence
keeps every item, producing exactly one string per item. -/
theorem normalizeItem_total (it : ContentItem) (items : List ContentItem) :
    (∀ t, it.textAttr = some t → normalizeItem it = t) ∧
      (∀ t, it.textAttr = none → it.isDict = true → it.dictText = some t →
        normalizeItem it = t) ∧
      (it.textAttr = none → (it.isDict = false ∨ it.dictText = none) →
        normalizeItem it = it.strRepr) ∧
      iterNormalize (.seq items) = .ok (items.map normalizeItem) ∧
      (items.map normalizeItem).length = items.length := by
  refine ⟨fun t ht => by simp [normalizeItem, ht],
    fun t h0 hd ht => by simp [normalizeItem, h0, hd, ht],
    fun h0 hcase => ?_, rfl, items.length_map normalizeItem⟩
  rcases hcase with hd | hd <;> simp [normalizeItem, h0, hd]

/-- Witness for C6 on the three item shapes: attribute text, mapping
text, and the fallback string representation. -/
theorem normalizeItem_total_witness :
    normalizeItem ⟨some "A", false, none, "x"⟩ = "A" ∧
      normalizeItem ⟨none, true, some "B", "y"⟩ = "B" ∧
      normalizeItem ⟨none, false, none, "42"⟩ = "42" :=
  ⟨(normalizeItem_total ⟨some "A", false, none, "x"⟩ []).1 "A" rfl,
   (normalizeItem_total ⟨none, true, some "B", "y"⟩ []).2.1 "B" rfl rfl rfl,
   (normalizeItem_total ⟨none, false, none, "42"⟩ []).2.2.1 rfl (Or.inl rfl)⟩

/-- C7: a response carrying `outputs` only in its mapping form
normalizes exactly as the same value exposed through an `outputs`
attribute, and the whole stage returns the same result either way:
decoding precedence is invisible in the final result. -/
theorem decode_mapping_attr_equiv (v : OutputsVal) (param : MCPParam)
    (input : StageInput) :
    iterNormalize (decodeOutputs (.dump (some v)))
        = iterNormalize (decodeOutputs (.attr v)) ∧
      run ⟨true, true, .ok (), fun _ => .ok (.dump (some v))⟩ param input
        = run ⟨true, true, .ok (), fun _ => .ok (.attr v)⟩ param input := by
  refine ⟨rfl, ?_⟩
  rcases input with ⟨_ | ⟨_ | ⟨x, rest⟩⟩⟩ <;> rfl

/-- C8: for a non-empty question, every tool call the run issues is the
single call named `ragflow_retrieval` whose arguments are exactly the
configured dataset identifiers, the configured document identifiers and
the question verbatim; at most one call is issued, and when the client
library is present and the connection and handshake succeed, exactly
that one call is issued. -/
theorem run_single_call (env : Env) (param : MCPParam)
    (input : StageInput) (q : String)
    (hq : extractQuestion input = .ok q) (hne : q ≠ "") :
    (∀ c ∈ (run env param input).2,
        c = ⟨"ragflow_retrieval", param.dataset_ids, param.document_ids, q⟩) ∧
      (run env param input).2.length ≤ 1 ∧
      (env.clientSessionAvailable = true → env.sseClientAvailable = true →
        env.connect = .ok () →
        (run env param input).2
          = [⟨"ragflow_retrieval", param.dataset_ids, param.document_ids, q⟩]) := by
  have htr : (run env param input).2 = (asyncCallTool env param q).2 := by
    rcases hac : asyncCallTool env param q with ⟨r, t⟩
    rcases r with msg | res
    · simp only [run, hq, if_neg hne, hac]
    · simp only [run, hq, if_neg hne, hac]
      rcases hit : iterNormalize (decodeOutputs res) with e | contents
      · rfl
      · by_cases hc : contents = [] <;> simp [hc]
  rw [htr]
  obtain ⟨cs, sse, conn, ct⟩ := env
  cases cs with
  | false =>
    exact ⟨fun c hc => (nomatch hc), Nat.zero_le 1, fun h => (nomatch h)⟩
  | true =>
    cases sse with
    | false =>
      exact ⟨fun c hc => (nomatch hc), Nat.zero_le 1, fun _ h => (nomatch h)⟩
    | true =>
      rcases conn with msg | u
      · exact ⟨fun c hc => (nomatch hc), Nat.zero_le 1, fun _ _ h => (nomatch h)⟩
      · exact ⟨fun c hc => by simpa [asyncCallTool] using hc, Nat.le_refl 1,
          fun _ _ _ => rfl⟩

/-- Witness for C8 at a concrete succeeding environment. -/
theorem run_single_call_witness :
    (run ⟨true, true, .ok (), fun _ => .ok .undecodable⟩
        ⟨"u", ["d1"], ["doc1"]⟩ ⟨some ["q"]⟩).2
      = [⟨"ragflow_retrieval", ["d1"], ["doc1"], "q"⟩] :=
  (run_single_call ⟨true, true, .ok (), fun _ => .ok .undecodable⟩
    ⟨"u", ["d1"], ["doc1"]⟩ ⟨some ["q"]⟩ "q" rfl (by decide)).2.2 rfl rfl rfl

/-- C9: when the MCP client library is unavailable and the question is
non-empty, the invocation fails with the runtime error carrying the
descriptive message, the stage catches it at the invocation boundary
and returns the error-tagged string instead of raising, and no tool
call is made. -/
theorem run_capability_unavailable (env : Env) (param : MCPParam)
    (input : StageInput) (q : String)
    (hq : extractQuestion input = .ok q) (hne : q ≠ "")
    (hun : env.clientSessionAvailable = false ∨ env.sseClientAvailable = false) :
    asyncCallTool env param q
        = (.error "MCP client library is not available", []) ∧
      run env param input
        = (.ok (.beOutput "Error: MCP client library is not available"), []) := by
  have hcall : asyncCallTool env param q
      = (.error "MCP client library is not available", []) := by
    unfold asyncCallTool
    rcases hun with h | h <;> simp [h]
  refine ⟨hcall, ?_⟩
  simp only [run, hq, if_neg hne, hcall]
  rfl

/-- Witness for C9 with only the session half of the client library
available. -/
theorem run_capability_unavailable_witness :
    run ⟨false, true, .ok (), fun _ => .ok .undecodable⟩ ⟨"u", [], []⟩
        ⟨some ["q"]⟩
      = (.ok (.beOutput "Error: MCP client library is not available"), []) :=
  (run_capability_unavailable ⟨false, true, .ok (), fun _ => .ok .undecodable⟩
    ⟨"u", [], []⟩ ⟨some ["q"]⟩ "q" rfl (by decide) (Or.inl rfl)).2

/-- C10: a remote response that normalizes to no content strings makes
the stage return exactly the same empty output value as an empty
question does, and in particular never an empty one-column table. -/
theorem run_empty_contents_empty_output (env : Env) (param : MCPParam)
    (input : StageInput) (q : String) (res : RemoteResponse)
    (hq : extractQuestion input = .ok q) (hne : q ≠ "")
    (hcall : (asyncCallTool env param q).1 = .ok res)
    (hz : iterNormalize (decodeOutputs res) = .ok []) :
    (run env param input).1 = .ok (.beOutput "") ∧
      (run env param input).1 = (run env param ⟨none⟩).1 ∧
      ∀ rows, (run env param input).1 ≠ .ok (.table rows) := by
  have h1 : (run env param input).1 = .ok (.beOutput "") := by
    rcases hac : asyncCallTool env param q with ⟨r, t⟩
    rw [hac] at hcall
    simp only at hcall
    subst hcall
    simp only [run, hq, if_neg hne, hac, hz]
    rfl
  exact ⟨h1, by rw [h1]; rfl, fun rows h => by rw [h1] at h; cases h⟩

/-- Witness for C10 with a remote response that decodes to an empty
outputs sequence. -/
theorem run_empty_contents_empty_output_witness :
    (run ⟨true, true, .ok (), fun _ => .ok (.attr (.seq []))⟩ ⟨"u", [], []⟩
        ⟨some ["q"]⟩).1 = .ok (.beOutput "") :=
  (run_empty_contents_empty_output
    ⟨true, true, .ok (), fun _ => .ok (.attr (.seq []))⟩ ⟨"u", [], []⟩
    ⟨some ["q"]⟩ "q" (.attr (.seq [])) rfl (by decide) rfl rfl).1
